import Mathlib

/-!
Verification of the validation/override/audit pipeline and the AI suggestion
pipeline of the VeriActHealthcare repository.

The backend part embeds `src/backend/app/api/validation.py` (endpoints
`validate_acte`, `create_override`, `reject_acte`) over an explicit database
state.  Service-layer helpers (`ActeService`, `OverrideService`) and the
blockchain client are not present in the source tree; they are modelled from
the specification, each marked `Modelled from the spec:` in its doc comment.
FastAPI `BackgroundTasks` are modelled as an explicit task list returned by
each endpoint and executed only by `runBackgroundTasks`, reflecting FastAPI's
documented semantics that background tasks run after the response is sent.
Floating-point confidence scores are modelled as rationals.
-/

namespace Backend

/-- One medical act record (`src/backend/app/models/acte.py`): status string
(`en_attente`/`valide`/`rejete`), optional AI confidence score, suggested and
final codes, validator and blockchain transaction hash. -/
structure Acte where
  id : Nat
  createur_id : Nat
  statut : String
  score_confiance : Option ℚ
  code_ccam_suggere : Option String
  code_ccam_final : Option String
  validateur_id : Option Nat
  transaction_hash : Option String
deriving DecidableEq, Repr

/-- A user (`src/backend/app/models/utilisateur.py`): only the fields the
validation endpoints read (id and role string). -/
structure Utilisateur where
  id : Nat
  role : String
deriving DecidableEq, Repr

/-- An audit log entry (`src/backend/app/models/audit_entry.py`), restricted
to the fields the validation endpoints populate via `log_audit_action`:
the act id, the acting user, the action name and the entity type. -/
structure AuditEntry where
  acte_id : Nat
  utilisateur_id : Nat
  action : String
  entity_type : String
deriving DecidableEq, Repr

/-- An override record (`src/backend/app/models/override.py`). -/
structure Override where
  id : Nat
  acte_id : Nat
  utilisateur_id : Nat
  code_ccam_original : String
  code_ccam_override : String
  justification : String
  type_override : String
  transaction_hash : Option String
deriving DecidableEq, Repr

/-- The relevant persistent state: the three tables the validation endpoints
touch. -/
structure DB where
  actes : List Acte
  overrides : List Override
  audit_entries : List AuditEntry
deriving DecidableEq, Repr

/-- Request body of the validation endpoint
(`src/backend/app/schemas/acte.py`, class `ActeValidation`). -/
structure ActeValidation where
  code_ccam_final : String
  justification : Option String
  force_validation : Bool
deriving DecidableEq, Repr

/-- Request body of the override endpoint (schema `OverrideCreate`; the
schema file is absent from the tree, fields taken from its use in
`validation.py`). -/
structure OverrideCreate where
  code_ccam_original : String
  code_ccam_override : String
  justification : String
  type_override : String
deriving DecidableEq, Repr

/-- The HTTP error outcomes raised by the endpoints, by status code:
404, 403, 400 (state-machine and confidence guards), 500 (the catch-all
`except` that wraps service and ledger failures). -/
inductive ApiError where
  | notFound (detail : String)
  | forbidden (detail : String)
  | badRequest (detail : String)
  | internalError (detail : String)
deriving DecidableEq, Repr

/-- The success payload of `validate_acte` / `reject_acte` (the returned
dict with `acte_id`, `transaction_hash`, `statut`). -/
structure ValidateResp where
  acte_id : Nat
  transaction_hash : String
  statut : String
deriving DecidableEq, Repr

instance {ε α : Type} [DecidableEq ε] [DecidableEq α] :
    DecidableEq (Except ε α) := fun x y =>
  match x, y with
  | .ok a, .ok b =>
    if h : a = b then isTrue (by rw [h]) else isFalse (by simp [h])
  | .error a, .error b =>
    if h : a = b then isTrue (by rw [h]) else isFalse (by simp [h])
  | .ok _, .error _ => isFalse (by simp)
  | .error _, .ok _ => isFalse (by simp)

/-- Result of one endpoint call: the HTTP outcome, the database state at the
moment the response is returned, and the background tasks scheduled (audit
log writes), which run only after the response. -/
structure ApiResult (α : Type) where
  result : Except ApiError α
  db : DB
  tasks : List AuditEntry
deriving DecidableEq, Repr

/-- `ActeService.get_acte_by_id`: first act with the given id. -/
def get_acte_by_id (db : DB) (acte_id : Nat) : Option Acte :=
  db.actes.find? (fun a => a.id = acte_id)

/-- Apply an update to the act with the given id. -/
def update_acte (db : DB) (acte_id : Nat) (f : Acte → Acte) : DB :=
  { db with actes := db.actes.map (fun a => if a.id = acte_id then f a else a) }

/-- Modelled from the spec: `ActeService.validate_acte`
(`src/backend/app/services/acte_service.py` is absent from the tree).  Per
spec section 4.3, on success it sets status = validated, the final code and
the validator, persisting immediately. -/
def ActeService_validate_acte (db : DB) (acte_id : Nat)
    (code_ccam_final : String) (validateur_id : Nat) : DB :=
  update_acte db acte_id (fun a =>
    { a with statut := "valide", code_ccam_final := some code_ccam_final,
             validateur_id := some validateur_id })

/-- Modelled from the spec: `ActeService.reject_acte` (service file absent).
Per spec section 4.3, on success it sets status = rejected. -/
def ActeService_reject_acte (db : DB) (acte_id : Nat)
    (validateur_id : Nat) : DB :=
  update_acte db acte_id (fun a =>
    { a with statut := "rejete", validateur_id := some validateur_id })

/-- Modelled from the spec: `ActeService.update_acte_blockchain_info`
(service file absent).  Fills in the ledger anchor on the act. -/
def update_acte_blockchain_info (db : DB) (acte_id : Nat)
    (txh : String) : DB :=
  update_acte db acte_id (fun a => { a with transaction_hash := some txh })

/-- Modelled from the spec: `ActeService.update_acte_suggestion` (service
file absent).  Spec section 4.4: an override updates the act's suggested
code to the override code, status untouched. -/
def update_acte_suggestion (db : DB) (acte_id : Nat) (code : String) : DB :=
  update_acte db acte_id (fun a => { a with code_ccam_suggere := some code })

/-- Modelled from the spec: `ActeService.log_audit_action` (service file
absent).  Spec section 4.5 `append`: adds exactly one audit entry to the
append-only log. -/
def log_audit_action (db : DB) (e : AuditEntry) : DB :=
  { db with audit_entries := db.audit_entries ++ [e] }

/-- Modelled from the spec: `OverrideService.create_override` (service file
absent).  Spec section 4.4: fails with ValidationError if the justification
is empty; otherwise creates an OverrideRecord (fresh local id, no anchor
yet). -/
def OverrideService_create_override (db : DB) (acte_id : Nat)
    (utilisateur_id : Nat) (od : OverrideCreate) :
    Except String (Override × DB) :=
  if od.justification = "" then
    .error "La justification est obligatoire"
  else
    let ov : Override :=
      { id := db.overrides.length + 1, acte_id := acte_id,
        utilisateur_id := utilisateur_id,
        code_ccam_original := od.code_ccam_original,
        code_ccam_override := od.code_ccam_override,
        justification := od.justification,
        type_override := od.type_override, transaction_hash := none }
    .ok (ov, { db with overrides := db.overrides ++ [ov] })

/-- Modelled from the spec: `OverrideService.update_override_blockchain_info`
(service file absent).  Fills in the ledger anchor on the override. -/
def update_override_blockchain_info (db : DB) (override_id : Nat)
    (txh : String) : DB :=
  { db with overrides := db.overrides.map (fun o =>
      if o.id = override_id then { o with transaction_hash := some txh }
      else o) }

/-- Python truthiness of the optional float `acte.score_confiance`:
`None` and `0` are falsy (`validation.py` line 59 relies on this). -/
def truthy : Option ℚ → Bool
  | none => false
  | some q => q ≠ 0

/-- Role check shared by the three endpoints
(`current_user.role.value not in ["admin", "medecin"]`). -/
def permission_denied (acte : Acte) (user : Utilisateur) : Prop :=
  acte.createur_id ≠ user.id ∧ user.role ∉ ["admin", "medecin"]

instance (acte : Acte) (user : Utilisateur) :
    Decidable (permission_denied acte user) := by
  unfold permission_denied; infer_instance

/-- POST `/{acte_id}` (`validation.py` `validate_acte`).  The ledger call
(`BlockchainService.record_validation`, service file absent) is passed in as
its outcome: per spec sections 6 and 7 a ledger submit either yields a
transaction reference or fails.  The audit write is scheduled as a
background task, not executed before the return. -/
def validate_acte (db : DB) (user : Utilisateur) (acte_id : Nat)
    (vd : ActeValidation) (ledger : Except String String) :
    ApiResult ValidateResp :=
  match get_acte_by_id db acte_id with
  | none => ⟨.error (.notFound "Acte non trouvé"), db, []⟩
  | some acte =>
    if permission_denied acte user then
      ⟨.error (.forbidden "Accès non autorisé"), db, []⟩
    else if acte.statut ∈ ["valide", "rejete"] then
      ⟨.error (.badRequest "Acte déjà validé"), db, []⟩
    else if ¬vd.force_validation ∧ truthy acte.score_confiance ∧
        acte.score_confiance.getD 0 < 50 then
      ⟨.error (.badRequest
        "Score de confiance trop faible. Utilisez force_validation=true pour forcer."),
       db, []⟩
    else
      let db1 := ActeService_validate_acte db acte_id vd.code_ccam_final user.id
      match ledger with
      | .error e =>
        ⟨.error (.internalError ("Erreur lors de la validation: " ++ e)), db1, []⟩
      | .ok txh =>
        let db2 := update_acte_blockchain_info db1 acte_id txh
        ⟨.ok ⟨acte_id, txh, "valide"⟩, db2,
         [⟨acte_id, user.id, "validate_acte", "acte"⟩]⟩

/-- POST `/{acte_id}/override` (`validation.py` `create_override`). -/
def create_override (db : DB) (user : Utilisateur) (acte_id : Nat)
    (od : OverrideCreate) (ledger : Except String String) :
    ApiResult Override :=
  match get_acte_by_id db acte_id with
  | none => ⟨.error (.notFound "Acte non trouvé"), db, []⟩
  | some acte =>
    if permission_denied acte user then
      ⟨.error (.forbidden "Accès non autorisé"), db, []⟩
    else if acte.statut ∈ ["valide", "rejete"] then
      ⟨.error (.badRequest
        "Impossible de créer un override sur un acte déjà validé"), db, []⟩
    else
      match OverrideService_create_override db acte_id user.id od with
      | .error e =>
        ⟨.error (.internalError ("Erreur lors de la création: " ++ e)), db, []⟩
      | .ok (ov, db1) =>
        match ledger with
        | .error e =>
          ⟨.error (.internalError ("Erreur lors de la création: " ++ e)), db1, []⟩
        | .ok txh =>
          let db2 := update_override_blockchain_info db1 ov.id txh
          let db3 := update_acte_suggestion db2 acte_id od.code_ccam_override
          ⟨.ok { ov with transaction_hash := some txh }, db3,
           [⟨acte_id, user.id, "create_override", "override"⟩]⟩

/-- POST `/{acte_id}/reject` (`validation.py` `reject_acte`). -/
def reject_acte (db : DB) (user : Utilisateur) (acte_id : Nat)
    (_reason : String) (ledger : Except String String) :
    ApiResult ValidateResp :=
  match get_acte_by_id db acte_id with
  | none => ⟨.error (.notFound "Acte non trouvé"), db, []⟩
  | some acte =>
    if permission_denied acte user then
      ⟨.error (.forbidden "Accès non autorisé"), db, []⟩
    else if acte.statut ∈ ["valide", "rejete"] then
      ⟨.error (.badRequest "Acte déjà traité"), db, []⟩
    else
      let db1 := ActeService_reject_acte db acte_id user.id
      match ledger with
      | .error e =>
        ⟨.error (.internalError ("Erreur lors du rejet: " ++ e)), db1, []⟩
      | .ok txh =>
        let db2 := update_acte_blockchain_info db1 acte_id txh
        ⟨.ok ⟨acte_id, txh, "rejete"⟩, db2,
         [⟨acte_id, user.id, "reject_acte", "acte"⟩]⟩

/-- Run the scheduled FastAPI background tasks (in order) against the
post-response database: each task is one `log_audit_action` call. -/
def runBackgroundTasks (db : DB) (tasks : List AuditEntry) : DB :=
  tasks.foldl log_audit_action db

/-- Fixture: a physician user. -/
def user7 : Utilisateur := ⟨7, "medecin"⟩

/-- Fixture: a database holding one act created by user 7. -/
def dbWith (st : String) (score : Option ℚ) : DB :=
  ⟨[⟨1, 7, st, score, none, none, none, none⟩], [], []⟩

end Backend

namespace AgentAI

/-- One CCAM code suggestion (`src/agent_ai/services/ai_service.py`,
pydantic model `Suggestion`).  The 0-100 float confidence score is
modelled as a rational. -/
structure Suggestion where
  code : String
  libelle : String
  modificateurs : List String
  score_confiance : ℚ
  explication : String
  incompatibilites : List String
deriving DecidableEq, Repr

/-- Result of `RuleEngine.validate_code` as consumed by
`_enrich_suggestions`: only the `is_valid` field is read, through
`.get("is_valid", True)`, so it is optional here. -/
structure RuleValidation where
  is_valid : Option Bool
deriving DecidableEq, Repr

/-- The provider response after JSON parsing, with the fields
`_enrich_suggestions` and `generate_suggestions` read (each `.get` default
is folded into the field type). -/
structure ParsedResponse where
  suggestions : List Suggestion
  score_confiance_global : ℚ
  explication_globale : String
  questions_clarification : List String
  alertes : List String
deriving DecidableEq, Repr

/-- An enriched suggestion: the original suggestion dict with the adjusted
score, plus the `rule_validation` and `extracted_info` keys added by
`_enrich_suggestions`. -/
structure EnrichedSuggestion where
  sugg : Suggestion
  rule_validation : RuleValidation
  extracted_info : List (String × String)
deriving DecidableEq, Repr

/-- Output of `_enrich_suggestions`. -/
structure EnrichedResponse where
  suggestions : List EnrichedSuggestion
  score_confiance_global : ℚ
  explication_globale : String
  questions_clarification : List String
  alertes : List String
deriving DecidableEq, Repr

/-- The pydantic `AISuggestionResponse` built at the end of
`generate_suggestions` (extra dict keys of the enriched suggestions are
dropped by the pydantic model). -/
structure AISuggestionResponse where
  suggestions : List Suggestion
  score_confiance_global : ℚ
  explication_globale : String
  questions_clarification : List String
  alertes : List String
deriving DecidableEq, Repr

/-- The two failure modes of `_parse_llm_response`: the
`ValueError("Aucun JSON trouvé dans la réponse")` guard, and a
`json.loads` decode failure (both are re-raised by the source). -/
inductive ParseErr where
  | noJsonFound
  | decodeError
deriving DecidableEq, Repr

/-- Python `str.find` restricted to a single character: index of the first
occurrence, `-1` if absent. -/
def py_find (s : String) (c : Char) : Int :=
  match s.data.findIdx? (fun x => x = c) with
  | some i => (i : Int)
  | none => -1

/-- Python `str.rfind` restricted to a single character: index of the last
occurrence, `-1` if absent. -/
def py_rfind (s : String) (c : Char) : Int :=
  match s.data.reverse.findIdx? (fun x => x = c) with
  | some i => ((s.data.length - 1 - i : Nat) : Int)
  | none => -1

/-- Python slice `s[a:b]` for `0 ≤ a` (character-based, as Python indexes
code points). -/
def py_slice (s : String) (a b : Int) : String :=
  ((s.data.drop a.toNat).take (b.toNat - a.toNat)).asString

/-- The opening brace character. -/
def lbrace : Char := '\x7b'

/-- The closing brace character. -/
def rbrace : Char := '\x7d'

/-- The substring `response[json_start:json_end]` that
`_parse_llm_response` hands to `json.loads`: from the first opening brace
to the last closing brace, inclusive. -/
def json_extract (response : String) : String :=
  py_slice response (py_find response lbrace) (py_rfind response rbrace + 1)

/-- `AIService._parse_llm_response`.  `json.loads` (Python standard
library, external to the repository) is passed in as an oracle `loads`
returning `none` on undecodable input.  Raises (returns) `noJsonFound`
when no brace pair exists, `decodeError` when the extracted slice does not
decode. -/
def parse_llm_response {α : Type} (loads : String → Option α)
    (response : String) : Except ParseErr α :=
  let json_start := py_find response lbrace
  let json_end := py_rfind response rbrace + 1
  if json_start = -1 ∨ json_end = 0 then
    .error .noJsonFound
  else
    match loads (py_slice response json_start json_end) with
    | some v => .ok v
    | none => .error .decodeError

/-- One step of `_enrich_suggestions`' loop body: validate the code with
the rule engine, then raise the confidence by 5 (ceiling 100) if valid,
lower it by 10 (floor 0) if invalid. -/
def enrich_one
    (rule_engine : String → List (String × String) → RuleValidation)
    (extracted_info : List (String × String)) (s : Suggestion) :
    EnrichedSuggestion :=
  let rule_validation := rule_engine s.code extracted_info
  let adjusted : ℚ :=
    if rule_validation.is_valid.getD true then
      min (s.score_confiance + 5) 100
    else
      max (s.score_confiance - 10) 0
  ⟨{ s with score_confiance := adjusted }, rule_validation, extracted_info⟩

/-- `AIService._enrich_suggestions` (the rule engine itself,
`src/agent_ai/utils/rule_engine.py`, is absent from the tree and passed in
as a function, pure per spec section 4.2). -/
def enrich_suggestions
    (rule_engine : String → List (String × String) → RuleValidation)
    (parsed : ParsedResponse) (extracted_info : List (String × String)) :
    EnrichedResponse :=
  ⟨parsed.suggestions.map (enrich_one rule_engine extracted_info),
   parsed.score_confiance_global, parsed.explication_globale,
   parsed.questions_clarification, parsed.alertes⟩

/-- Decimal rendering of a natural number, modelling Python `str` on a
non-negative int. -/
def strOfNat (n : Nat) : String :=
  if n = 0 then "0"
  else ((Nat.digits 10 n).reverse.map Nat.digitChar).asString

/-- `str(acte_data.get("duree_acte", ""))`: the empty string when the
duration is absent, its decimal rendering otherwise. -/
def strOfDuree : Option Nat → String
  | none => ""
  | some n => strOfNat n

/-- Code-point lexicographic comparison of character lists, modelling
Python string comparison. -/
def chars_le : List Char → List Char → Bool
  | [], _ => true
  | _ :: _, [] => false
  | c :: cs, d :: ds =>
    if c.toNat < d.toNat then true
    else if d.toNat < c.toNat then false
    else chars_le cs ds

/-- Python `<=` on strings: code-point lexicographic order. -/
def str_le (a b : String) : Bool := chars_le a.data b.data

/-- Insertion into a sorted list (lexicographic string order). -/
def insert_sorted (x : String) : List String → List String
  | [] => [x]
  | y :: ys => if str_le x y then x :: y :: ys else y :: insert_sorted x ys

/-- Python `sorted` on strings: a stable sort by lexicographic order
(insertion sort produces the same output as any stable sort for this total
order). -/
def py_sorted : List String → List String
  | [] => []
  | x :: xs => insert_sorted x (py_sorted xs)

/-- The first `n` characters of a string, modelling Python `s[:100]`. -/
def py_take_chars (s : String) (n : Nat) : String :=
  (s.data.take n).asString

/-- The acte data dict fields read by the AI service (`acte_data.get`
defaults folded into the types). -/
structure ActeData where
  numero_acte : String
  type_acte : String
  description_clinique : String
  materiel_utilise : String
  duree_acte : Option Nat
  modificateurs : List String
  etablissement : String
  service : String
deriving DecidableEq, Repr

/-- `''.join(key_parts)` of `AIService._create_cache_key`: act type, the
100-character description prefix, the duration string and the sorted
comma-joined modifiers, concatenated without separators. -/
def joined_key (a : ActeData) : String :=
  a.type_acte ++ py_take_chars a.description_clinique 100 ++
    strOfDuree a.duree_acte ++
    String.intercalate "," (py_sorted a.modificateurs)

/-- `AIService._create_cache_key`.  Python's builtin `hash` (process-wide,
external to the repository) is passed in as a function `pyhash`. -/
def create_cache_key (pyhash : String → Int) (a : ActeData) : String :=
  "ccam_suggestion:" ++ toString (pyhash (joined_key a))

/-- Modelled from the spec: a `SuggestionCache` entry
(`src/agent_ai/utils/cache_manager.py` is absent from the tree).  Spec
section 3: fingerprint key, value, creation time, TTL. -/
structure CacheEntry where
  value : AISuggestionResponse
  stored_at : Nat
  ttl : Nat
deriving DecidableEq, Repr

/-- Modelled from the spec: `CacheManager.get` (cache manager file
absent).  Returns the stored value unless the entry has expired (spec
section 4.1: "return a cache hit unless expired"). -/
def CacheManager_get (cache : List (String × CacheEntry)) (key : String)
    (now : Nat) : Option AISuggestionResponse :=
  match cache.lookup key with
  | some e => if now < e.stored_at + e.ttl then some e.value else none
  | none => none

/-- Modelled from the spec: `CacheManager.set` with a TTL (cache manager
file absent). -/
def CacheManager_set (cache : List (String × CacheEntry)) (key : String)
    (v : AISuggestionResponse) (ttl now : Nat) :
    List (String × CacheEntry) :=
  (key, ⟨v, now, ttl⟩) :: cache.filter (fun p => p.1 ≠ key)

/-- The external collaborators of `generate_suggestions`: the completion
provider (`_call_llm`), prompt formatting (`CCAMPrompts.format_prompt` —
prompt wording is out of scope per spec section 1), `json.loads` typed at
its two use sites, the rule engine, and Python's string `hash`. -/
structure AIEnv where
  llm : String → String
  format_prompt : String → List String → String
  loads_info : String → Option (List (String × String))
  loads_main : String → Option ParsedResponse
  rule_engine : String → List (String × String) → RuleValidation
  pyhash : String → Int

/-- `AIService._extract_clinical_info`: calls the provider and parses; any
failure is swallowed and `{}` is returned. -/
def extract_clinical_info (env : AIEnv) (a : ActeData) :
    List (String × String) :=
  match parse_llm_response env.loads_info
      (env.llm (env.format_prompt "extraction" [a.description_clinique])) with
  | .ok info => info
  | .error _ => []

/-- The final `AISuggestionResponse` built from the enriched result (the
pydantic model keeps only its declared fields). -/
def mk_ai_response (e : EnrichedResponse) : AISuggestionResponse :=
  ⟨e.suggestions.map (fun s => s.sugg), e.score_confiance_global,
   e.explication_globale, e.questions_clarification, e.alertes⟩

/-- Result of `generate_suggestions`: the outcome, the cache afterwards,
and how many completion-provider calls were issued. -/
structure GenResult where
  result : Except ParseErr AISuggestionResponse
  cache : List (String × CacheEntry)
  provider_calls : Nat
deriving DecidableEq, Repr

/-- `AIService.generate_suggestions`.  On a cache hit (no
`force_regenerate`) the cached response is returned with no provider call;
otherwise the pipeline runs: clinical-info extraction (one provider call,
errors swallowed), the main completion call, JSON parsing (failure
propagates), rule enrichment, and a cache store with the fixed 3600-second
TTL.  The metrics store under the separate `metrics:` key space
(`_record_metrics`, errors swallowed) is omitted. -/
def generate_suggestions (env : AIEnv) (cache : List (String × CacheEntry))
    (now : Nat) (acte_data : ActeData) (force_regenerate : Bool) :
    GenResult :=
  let cache_key := create_cache_key env.pyhash acte_data
  match (if force_regenerate then none
         else CacheManager_get cache cache_key now) with
  | some cached_result => ⟨.ok cached_result, cache, 0⟩
  | none =>
    let extracted_info := extract_clinical_info env acte_data
    let prompt := env.format_prompt "main_suggestion"
      [acte_data.type_acte, acte_data.description_clinique,
       acte_data.materiel_utilise, strOfDuree acte_data.duree_acte,
       String.intercalate ", " acte_data.modificateurs,
       acte_data.etablissement, acte_data.service]
    let llm_response := env.llm prompt
    match parse_llm_response env.loads_main llm_response with
    | .error e => ⟨.error e, cache, 2⟩
    | .ok parsed =>
      let ai_response :=
        mk_ai_response (enrich_suggestions env.rule_engine parsed
          extracted_info)
      ⟨.ok ai_response, CacheManager_set cache cache_key ai_response 3600 now, 2⟩

/-- Fixture: an environment whose external collaborators are trivial. -/
def env0 : AIEnv :=
  ⟨fun _ => "", fun _ _ => "", fun _ => none, fun _ => none,
   fun _ _ => ⟨none⟩, fun _ => 0⟩

/-- Fixture: an act awaiting suggestion. -/
def acte0 : ActeData :=
  ⟨"A-1", "chirurgie", "Pose de stent coronaire", "", none, [], "CH",
   "cardio"⟩

/-- Fixture: a cached suggestion response. -/
def resp0 : AISuggestionResponse := ⟨[], 95, "ok", [], []⟩

end AgentAI

namespace Backend

/-- C2: an act whose status is already `valide` or `rejete` is terminal: a
further validate, reject, or override attempt (by an authorized caller, on
an existing act) fails with the AlreadyFinalized 400 error, the database is
unchanged, and no background task is scheduled. -/
theorem C2_terminal_state_frozen
    (db : DB) (user : Utilisateur) (aid : Nat) (vd : ActeValidation)
    (od : OverrideCreate) (reason : String) (ledger : Except String String)
    (acte : Acte) (hfind : get_acte_by_id db aid = some acte)
    (hperm : ¬ permission_denied acte user)
    (hfin : acte.statut = "valide" ∨ acte.statut = "rejete") :
    validate_acte db user aid vd ledger =
      ⟨.error (.badRequest "Acte déjà validé"), db, []⟩ ∧
    reject_acte db user aid reason ledger =
      ⟨.error (.badRequest "Acte déjà traité"), db, []⟩ ∧
    create_override db user aid od ledger =
      ⟨.error (.badRequest
        "Impossible de créer un override sur un acte déjà validé"), db, []⟩ := by
  have hmem : acte.statut ∈ ["valide", "rejete"] := by
    rcases hfin with h | h <;> simp [h]
  refine ⟨?_, ?_, ?_⟩ <;>
    simp [validate_acte, reject_acte, create_override, hfind, hperm, hmem]

theorem C2_witness :
    validate_acte (dbWith "valide" (some 80)) user7 1 ⟨"X", none, false⟩
        (.ok "0x") =
      ⟨.error (.badRequest "Acte déjà validé"), dbWith "valide" (some 80), []⟩ :=
  (C2_terminal_state_frozen (dbWith "valide" (some 80)) user7 1
    ⟨"X", none, false⟩ ⟨"A", "B", "j", "correction"⟩ "r" (.ok "0x")
    ⟨1, 7, "valide", some 80, none, none, none, none⟩
    (by decide) (by decide) (Or.inl rfl)).1

/-- C4 counterexample: a pending act with confidence score 0 (which is below
50) does NOT fail the low-confidence guard with `force` false — the call
succeeds outright, because `0` is falsy in the guard
`acte.score_confiance and acte.score_confiance < 50`. -/
theorem C4_counterexample :
    (0 : ℚ) < 50 ∧
    validate_acte (dbWith "en_attente" (some 0)) user7 1
        ⟨"HHFA001", none, false⟩ (.ok "0xabc") =
      ⟨.ok ⟨1, "0xabc", "valide"⟩,
       ⟨[⟨1, 7, "valide", some 0, none, some "HHFA001", some 7, some "0xabc"⟩],
        [], []⟩,
       [⟨1, 7, "validate_acte", "acte"⟩]⟩ := by
  exact ⟨by norm_num, by decide⟩

/-- C4 (amended): for a pending act whose confidence score is *nonzero* and
below 50, validate with `force_validation` false fails with the
LowConfidence 400 error and changes no state; the same request with
`force_validation` true succeeds (given a successful ledger call).  Acts
with score `0` or no score skip the guard (see the counterexample). -/
theorem C4_low_confidence_guard
    (db : DB) (user : Utilisateur) (aid : Nat) (vd : ActeValidation)
    (ledger : Except String String) (txh : String) (acte : Acte) (s : ℚ)
    (hfind : get_acte_by_id db aid = some acte)
    (hperm : ¬ permission_denied acte user)
    (hpend : acte.statut ∉ ["valide", "rejete"])
    (hscore : acte.score_confiance = some s) (hs0 : s ≠ 0) (hslt : s < 50) :
    validate_acte db user aid { vd with force_validation := false } ledger =
      ⟨.error (.badRequest
        "Score de confiance trop faible. Utilisez force_validation=true pour forcer."),
       db, []⟩ ∧
    (validate_acte db user aid { vd with force_validation := true }
        (.ok txh)).result = .ok ⟨aid, txh, "valide"⟩ := by
  constructor
  · simp [validate_acte, hfind, hperm, hpend, truthy, hscore, hs0, hslt]
  · simp [validate_acte, hfind, hperm, hpend]

theorem C4_witness :
    validate_acte (dbWith "en_attente" (some 40)) user7 1
        ⟨"X", none, false⟩ (.ok "0x") =
      ⟨.error (.badRequest
        "Score de confiance trop faible. Utilisez force_validation=true pour forcer."),
       dbWith "en_attente" (some 40), []⟩ :=
  (C4_low_confidence_guard (dbWith "en_attente" (some 40)) user7 1
    ⟨"X", none, true⟩ (.ok "0x") "0x"
    ⟨1, 7, "en_attente", some 40, none, none, none, none⟩ 40
    (by decide) (by decide) (by decide) rfl (by norm_num) (by norm_num)).1

/-- C10: a pending act whose stored confidence score is `None` or `0` does
not trip the low-confidence guard: with `force_validation` false the request
proceeds and (with a successful ledger call) succeeds, because the guard
`acte.score_confiance and acte.score_confiance < 50` only fires on a truthy
score. -/
theorem C10_falsy_score_skips_guard
    (db : DB) (user : Utilisateur) (aid : Nat) (vd : ActeValidation)
    (txh : String) (acte : Acte)
    (hfind : get_acte_by_id db aid = some acte)
    (hperm : ¬ permission_denied acte user)
    (hpend : acte.statut ∉ ["valide", "rejete"])
    (hscore : acte.score_confiance = none ∨ acte.score_confiance = some 0) :
    (validate_acte db user aid { vd with force_validation := false }
        (.ok txh)).result = .ok ⟨aid, txh, "valide"⟩ := by
  rcases hscore with h | h <;>
    simp [validate_acte, hfind, hperm, hpend, truthy, h]

theorem C10_witness :
    (validate_acte (dbWith "en_attente" none) user7 1 ⟨"X", none, false⟩
        (.ok "0x")).result = .ok ⟨1, "0x", "valide"⟩ :=
  C10_falsy_score_skips_guard (dbWith "en_attente" none) user7 1
    ⟨"X", none, true⟩ "0x" ⟨1, 7, "en_attente", none, none, none, none, none⟩
    (by decide) (by decide) (by decide) (Or.inl rfl)

/-- C9: an override request with an empty justification fails — the
override service raises ValidationError, the endpoint reports a failure
(wrapped by its catch-all as a 500), and no OverrideRecord is created, the
database being returned unchanged. -/
theorem C9_empty_justification_rejected
    (db : DB) (user : Utilisateur) (aid : Nat) (od : OverrideCreate)
    (ledger : Except String String) (acte : Acte)
    (hfind : get_acte_by_id db aid = some acte)
    (hperm : ¬ permission_denied acte user)
    (hpend : acte.statut ∉ ["valide", "rejete"])
    (hj : od.justification = "") :
    OverrideService_create_override db aid user.id od =
      .error "La justification est obligatoire" ∧
    create_override db user aid od ledger =
      ⟨.error (.internalError
        ("Erreur lors de la création: " ++ "La justification est obligatoire")),
       db, []⟩ := by
  constructor
  · simp [OverrideService_create_override, hj]
  · simp [create_override, OverrideService_create_override, hfind, hperm,
      hpend, hj]

theorem C9_witness :
    create_override (dbWith "en_attente" (some 80)) user7 1
        ⟨"AAAA001", "BBBB002", "", "correction"⟩ (.ok "0x") =
      ⟨.error (.internalError
        ("Erreur lors de la création: " ++ "La justification est obligatoire")),
       dbWith "en_attente" (some 80), []⟩ :=
  (C9_empty_justification_rejected (dbWith "en_attente" (some 80)) user7 1
    ⟨"AAAA001", "BBBB002", "", "correction"⟩ (.ok "0x")
    ⟨1, 7, "en_attente", some 80, none, none, none, none⟩
    (by decide) (by decide) (by decide) rfl).2

/-- C1 counterexample: a successful validate call returns with the audit
log still empty — the AuditEntry is not produced before the call returns
success, because the audit write is only scheduled as a FastAPI background
task (executed after the response). -/
theorem C1_counterexample :
    (validate_acte (dbWith "en_attente" (some 90)) user7 1
        ⟨"HHFA001", none, false⟩ (.ok "0xabc")).result =
      .ok ⟨1, "0xabc", "valide"⟩ ∧
    (validate_acte (dbWith "en_attente" (some 90)) user7 1
        ⟨"HHFA001", none, false⟩ (.ok "0xabc")).db.audit_entries = [] := by
  decide

/-- C1 (amended): every successful validate, reject, or override-creation
call schedules exactly one audit-logging background task, whose entry
carries the matching act id and action name; at the moment the call returns
the audit log is unchanged, and running the scheduled tasks afterwards
appends exactly that one entry. -/
theorem C1_one_audit_task_per_success
    (db : DB) (user : Utilisateur) (aid : Nat) (vd : ActeValidation)
    (od : OverrideCreate) (reason : String) (ledger : Except String String) :
    (∀ r, (validate_acte db user aid vd ledger).result = .ok r →
      (validate_acte db user aid vd ledger).tasks =
        [⟨aid, user.id, "validate_acte", "acte"⟩] ∧
      (validate_acte db user aid vd ledger).db.audit_entries =
        db.audit_entries ∧
      (runBackgroundTasks (validate_acte db user aid vd ledger).db
        (validate_acte db user aid vd ledger).tasks).audit_entries =
        db.audit_entries ++ [⟨aid, user.id, "validate_acte", "acte"⟩]) ∧
    (∀ r, (reject_acte db user aid reason ledger).result = .ok r →
      (reject_acte db user aid reason ledger).tasks =
        [⟨aid, user.id, "reject_acte", "acte"⟩] ∧
      (reject_acte db user aid reason ledger).db.audit_entries =
        db.audit_entries ∧
      (runBackgroundTasks (reject_acte db user aid reason ledger).db
        (reject_acte db user aid reason ledger).tasks).audit_entries =
        db.audit_entries ++ [⟨aid, user.id, "reject_acte", "acte"⟩]) ∧
    (∀ r, (create_override db user aid od ledger).result = .ok r →
      (create_override db user aid od ledger).tasks =
        [⟨aid, user.id, "create_override", "override"⟩] ∧
      (create_override db user aid od ledger).db.audit_entries =
        db.audit_entries ∧
      (runBackgroundTasks (create_override db user aid od ledger).db
        (create_override db user aid od ledger).tasks).audit_entries =
        db.audit_entries ++ [⟨aid, user.id, "create_override", "override"⟩]) := by
  refine ⟨?_, ?_, ?_⟩ <;> intro r h
  · unfold validate_acte at h ⊢
    cases hg : get_acte_by_id db aid with
    | none => rw [hg] at h; simp at h
    | some acte =>
      rw [hg] at h
      dsimp only at h ⊢
      split_ifs at h ⊢ <;> try simp at h
      cases ledger with
      | error e => simp at h
      | ok txh => exact ⟨rfl, rfl, rfl⟩
  · unfold reject_acte at h ⊢
    cases hg : get_acte_by_id db aid with
    | none => rw [hg] at h; simp at h
    | some acte =>
      rw [hg] at h
      dsimp only at h ⊢
      split_ifs at h ⊢ <;> try simp at h
      cases ledger with
      | error e => simp at h
      | ok txh => exact ⟨rfl, rfl, rfl⟩
  · unfold create_override OverrideService_create_override at h ⊢
    cases hg : get_acte_by_id db aid with
    | none => rw [hg] at h; simp at h
    | some acte =>
      rw [hg] at h
      dsimp only at h ⊢
      split_ifs at h ⊢ <;> try simp at h
      cases ledger with
      | error e => simp at h
      | ok txh => exact ⟨rfl, rfl, rfl⟩

theorem C1_witness :
    (validate_acte (dbWith "en_attente" (some 95)) user7 1 ⟨"H", none, true⟩
        (.ok "0x")).tasks = [⟨1, 7, "validate_acte", "acte"⟩] :=
  ((C1_one_audit_task_per_success (dbWith "en_attente" (some 95)) user7 1
      ⟨"H", none, true⟩ ⟨"A", "B", "j", "correction"⟩ "r" (.ok "0x")).1
    ⟨1, "0x", "valide"⟩ (by decide)).1

/-- C3 counterexample: a validate request whose local state change succeeds
but whose ledger call fails is reported as a 500 error, not as a success —
and the act is nonetheless left validated in the database. -/
theorem C3_counterexample :
    (validate_acte (dbWith "en_attente" (some 90)) user7 1
        ⟨"HHFA001", none, true⟩ (.error "ledger timeout")).result =
      .error (.internalError
        ("Erreur lors de la validation: " ++ "ledger timeout")) ∧
    (validate_acte (dbWith "en_attente" (some 90)) user7 1
        ⟨"HHFA001", none, true⟩ (.error "ledger timeout")).db =
      ⟨[⟨1, 7, "valide", some 90, none, some "HHFA001", some 7, none⟩],
       [], []⟩ := by
  decide

/-- C3 (amended): a failed ledger-anchoring call fails the originating
business operation.  For every validate, reject, or override request that
passes the guards, a ledger failure makes the endpoint report a 500
internal error; the local state change has already been applied and is kept
(the act is left validated/rejected, the override record is kept), the
audit task is never scheduled, and there is no retry. -/
theorem C3_ledger_failure_fails_request
    (db : DB) (user : Utilisateur) (aid : Nat) (vd : ActeValidation)
    (od : OverrideCreate) (reason e : String) (acte : Acte)
    (hfind : get_acte_by_id db aid = some acte)
    (hperm : ¬ permission_denied acte user)
    (hpend : acte.statut ∉ ["valide", "rejete"])
    (hforce : vd.force_validation = true)
    (hj : od.justification ≠ "") :
    validate_acte db user aid vd (.error e) =
      ⟨.error (.internalError ("Erreur lors de la validation: " ++ e)),
       ActeService_validate_acte db aid vd.code_ccam_final user.id, []⟩ ∧
    reject_acte db user aid reason (.error e) =
      ⟨.error (.internalError ("Erreur lors du rejet: " ++ e)),
       ActeService_reject_acte db aid user.id, []⟩ ∧
    create_override db user aid od (.error e) =
      ⟨.error (.internalError ("Erreur lors de la création: " ++ e)),
       { db with overrides := db.overrides ++
         [⟨db.overrides.length + 1, aid, user.id, od.code_ccam_original,
           od.code_ccam_override, od.justification, od.type_override,
           none⟩] }, []⟩ := by
  refine ⟨?_, ?_, ?_⟩
  · simp [validate_acte, hfind, hperm, hpend, hforce]
  · simp [reject_acte, hfind, hperm, hpend]
  · simp [create_override, OverrideService_create_override, hfind, hperm,
      hpend, hj]

theorem C3_witness :
    reject_acte (dbWith "en_attente" (some 90)) user7 1 "non conforme"
        (.error "ledger down") =
      ⟨.error (.internalError ("Erreur lors du rejet: " ++ "ledger down")),
       ActeService_reject_acte (dbWith "en_attente" (some 90)) 1 7, []⟩ :=
  (C3_ledger_failure_fails_request (dbWith "en_attente" (some 90)) user7 1
    ⟨"X", none, true⟩ ⟨"A", "B", "j", "correction"⟩ "non conforme"
    "ledger down" ⟨1, 7, "en_attente", some 90, none, none, none, none⟩
    (by decide) (by decide) (by decide) rfl (by decide)).2.1

end Backend

namespace AgentAI

/-- C5: the enrichment step maps each candidate through the rule check and
sets the adjusted score to `min(s+5, 100)` when the check is valid and to
`max(s-10, 0)` when it is invalid; for every base score in the declared
0-100 range the adjusted score again lies in [0, 100]. -/
theorem C5_confidence_adjustment
    (rule_engine : String → List (String × String) → RuleValidation)
    (extracted_info : List (String × String)) (parsed : ParsedResponse)
    (s : Suggestion) :
    (enrich_suggestions rule_engine parsed extracted_info).suggestions =
      parsed.suggestions.map (enrich_one rule_engine extracted_info) ∧
    ((rule_engine s.code extracted_info).is_valid.getD true = true →
      (enrich_one rule_engine extracted_info s).sugg.score_confiance =
        min (s.score_confiance + 5) 100) ∧
    ((rule_engine s.code extracted_info).is_valid.getD true = false →
      (enrich_one rule_engine extracted_info s).sugg.score_confiance =
        max (s.score_confiance - 10) 0) ∧
    (0 ≤ s.score_confiance → s.score_confiance ≤ 100 →
      0 ≤ (enrich_one rule_engine extracted_info s).sugg.score_confiance ∧
      (enrich_one rule_engine extracted_info s).sugg.score_confiance ≤ 100) := by
  refine ⟨rfl, ?_, ?_, ?_⟩
  · intro hv; simp [enrich_one, hv]
  · intro hv; simp [enrich_one, hv]
  · intro h0 h100
    unfold enrich_one
    dsimp only
    split_ifs with hv
    · constructor
      · exact le_min (by linarith) (by norm_num)
      · exact min_le_right _ _
    · constructor
      · exact le_max_right _ _
      · exact max_le (by linarith) (by norm_num)

theorem C5_witness :
    (enrich_one (fun _ _ => ⟨some false⟩) [] 
        ⟨"HHFA001", "lib", [], 50, "exp", []⟩).sugg.score_confiance =
      max ((50 : ℚ) - 10) 0 ∧
    (0 : ℚ) ≤ (enrich_one (fun _ _ => ⟨some false⟩) []
        ⟨"HHFA001", "lib", [], 50, "exp", []⟩).sugg.score_confiance :=
  ⟨(C5_confidence_adjustment (fun _ _ => ⟨some false⟩) [] ⟨[], 0, "", [], []⟩
      ⟨"HHFA001", "lib", [], 50, "exp", []⟩).2.2.1 rfl,
   ((C5_confidence_adjustment (fun _ _ => ⟨some false⟩) [] ⟨[], 0, "", [], []⟩
      ⟨"HHFA001", "lib", [], 50, "exp", []⟩).2.2.2 (by norm_num)
      (by norm_num)).1⟩

/-- C6: with `force_regenerate` false and an unexpired entry (stored with
the fixed 3600-second TTL) present under the act's fingerprint,
`generate_suggestions` returns the cached response, leaves the cache
untouched, and issues zero provider calls. -/
theorem C6_cache_hit_no_provider_call
    (env : AIEnv) (cache : List (String × CacheEntry)) (now : Nat)
    (acte_data : ActeData) (entry : CacheEntry)
    (hlook : cache.lookup (create_cache_key env.pyhash acte_data) =
      some entry)
    (httl : entry.ttl = 3600)
    (hfresh : now < entry.stored_at + entry.ttl) :
    generate_suggestions env cache now acte_data false =
      ⟨.ok entry.value, cache, 0⟩ := by
  unfold generate_suggestions CacheManager_get
  simp [hlook, hfresh]

theorem C6_witness :
    generate_suggestions env0
      [(create_cache_key env0.pyhash acte0, ⟨resp0, 10, 3600⟩)] 100 acte0
      false =
    ⟨.ok resp0, [(create_cache_key env0.pyhash acte0, ⟨resp0, 10, 3600⟩)],
     0⟩ :=
  C6_cache_hit_no_provider_call env0
    [(create_cache_key env0.pyhash acte0, ⟨resp0, 10, 3600⟩)] 100 acte0
    ⟨resp0, 10, 3600⟩ (by simp) rfl (by norm_num)

/-- C7: `_parse_llm_response` succeeds only when the single slice from the
first opening brace to the last closing brace decodes as one JSON object
(`json.loads` passed as an oracle): a response with no brace pair fails
with the no-JSON-found error, a response whose extracted slice does not
decode fails with a decode error, and any success returns exactly the
decoded object of that slice. -/
theorem C7_parse_requires_single_object :
    (∀ (α : Type) (loads : String → Option α) (response : String),
       py_find response lbrace = -1 ∨ py_rfind response rbrace = -1 →
       parse_llm_response loads response = .error .noJsonFound) ∧
    (∀ (α : Type) (loads : String → Option α) (response : String),
       py_find response lbrace ≠ -1 → py_rfind response rbrace ≠ -1 →
       loads (json_extract response) = none →
       parse_llm_response loads response = .error .decodeError) ∧
    (∀ (α : Type) (loads : String → Option α) (response : String) (v : α),
       parse_llm_response loads response = .ok v →
       loads (json_extract response) = some v) := by
  refine ⟨?_, ?_, ?_⟩
  · intro α loads response h
    unfold parse_llm_response
    rcases h with h | h
    · simp [h]
    · rw [h]
      norm_num
  · intro α loads response h1 h2 hload
    unfold parse_llm_response
    rw [if_neg, json_extract] at *
    · rw [hload]
    · push_neg
      exact ⟨h1, by omega⟩
  · intro α loads response v h
    unfold parse_llm_response at h
    dsimp only at h
    split at h
    · simp at h
    · unfold json_extract
      rcases hl : loads (py_slice response (py_find response lbrace)
          (py_rfind response rbrace + 1)) with _ | w
      · rw [hl] at h
        simp at h
      · rw [hl] at h
        simp only [Except.ok.injEq] at h
        rw [h]

theorem C7_witness :
    parse_llm_response (fun _ => (none : Option ParsedResponse))
      "no object here" = .error .noJsonFound :=
  C7_parse_requires_single_object.1 ParsedResponse (fun _ => none)
    "no object here" (Or.inl (by decide))

theorem digitChar_inj_lt :
    ∀ a, a < 10 → ∀ b, b < 10 → Nat.digitChar a = Nat.digitChar b →
      a = b := by
  decide

theorem map_digitChar_inj :
    ∀ (l1 l2 : List ℕ), (∀ d ∈ l1, d < 10) → (∀ d ∈ l2, d < 10) →
      l1.map Nat.digitChar = l2.map Nat.digitChar → l1 = l2
  | [], [], _, _, _ => rfl
  | [], _ :: _, _, _, h => by simp at h
  | _ :: _, [], _, _, h => by simp at h
  | a :: l1, b :: l2, h1, h2, h => by
    simp only [List.map_cons, List.cons.injEq] at h
    have ha := h1 a (by simp)
    have hb := h2 b (by simp)
    have hab := digitChar_inj_lt a ha b hb h.1
    rw [hab, map_digitChar_inj l1 l2 (fun d hd => h1 d (by simp [hd]))
      (fun d hd => h2 d (by simp [hd])) h.2]

theorem digits_repr_ne_zero_string (n : ℕ) (hn : n ≠ 0) :
    ((Nat.digits 10 n).reverse.map Nat.digitChar).asString ≠ "0" := by
  intro h
  rw [show ("0" : String) = List.asString ['0'] from rfl,
    List.asString_inj] at h
  have hlen : (Nat.digits 10 n).length = 1 := by
    have := congrArg List.length h
    simpa using this
  obtain ⟨d, hd⟩ := List.length_eq_one.mp hlen
  rw [hd] at h
  simp only [List.reverse_cons, List.reverse_nil, List.nil_append,
    List.map_cons, List.map_nil, List.cons.injEq, and_true] at h
  have hdlt : d < 10 :=
    Nat.digits_lt_base (by norm_num) (by rw [hd]; simp)
  have hd0 : d = 0 := digitChar_inj_lt d hdlt 0 (by norm_num) h
  have hofd := Nat.ofDigits_digits 10 n
  rw [hd, hd0] at hofd
  simp [Nat.ofDigits] at hofd
  exact hn hofd.symm

theorem strOfNat_injective : Function.Injective strOfNat := by
  intro m n h
  unfold strOfNat at h
  split_ifs at h with hm hn hn
  · rw [hm, hn]
  · exact absurd h.symm (digits_repr_ne_zero_string n hn)
  · exact absurd h (digits_repr_ne_zero_string m hm)
  · rw [List.asString_inj] at h
    have hb1 : ∀ d ∈ (Nat.digits 10 m).reverse, d < 10 := by
      intro d hd
      rw [List.mem_reverse] at hd
      exact Nat.digits_lt_base (by norm_num) hd
    have hb2 : ∀ d ∈ (Nat.digits 10 n).reverse, d < 10 := by
      intro d hd
      rw [List.mem_reverse] at hd
      exact Nat.digits_lt_base (by norm_num) hd
    have hrev := map_digitChar_inj _ _ hb1 hb2 h
    have hdig := List.reverse_injective hrev
    exact Nat.digits.injective 10 hdig

theorem strOfNat_ne_empty (n : ℕ) : strOfNat n ≠ "" := by
  unfold strOfNat
  split_ifs with hn
  · decide
  · intro h
    have hlen : (Nat.digits 10 n).length = 0 := by
      simpa using congrArg String.length h
    exact Nat.digits_ne_nil_iff_ne_zero.mpr hn
      (List.length_eq_zero.mp hlen)

theorem strOfDuree_injective : Function.Injective strOfDuree := by
  intro x y h
  match x, y with
  | none, none => rfl
  | none, some n => exact absurd h.symm (strOfNat_ne_empty n)
  | some m, none => exact absurd h (strOfNat_ne_empty m)
  | some m, some n => rw [strOfNat_injective h]

theorem joined_key_data (a : ActeData) :
    (joined_key a).data =
      a.type_acte.data ++ ((py_take_chars a.description_clinique 100).data ++
        ((strOfDuree a.duree_acte).data ++
          (String.intercalate "," (py_sorted a.modificateurs)).data)) := by
  simp [joined_key, String.data_append, List.append_assoc]

/-- C8 (amended): the fingerprint is a deterministic function of the act;
the pre-hash key string changes whenever exactly the act type, the
100-character description prefix, or the duration changes (the fingerprint
then changes whenever the string hash does not collide).  A change to the
modifier set need NOT change the fingerprint: only the sorted comma-join
of the modifiers enters the key (see the counterexample). -/
theorem C8_fingerprint_sensitivity :
    (∀ (pyhash : String → Int) (a : ActeData),
       create_cache_key pyhash a = create_cache_key pyhash a) ∧
    (∀ a a' : ActeData,
       py_take_chars a.description_clinique 100 =
         py_take_chars a'.description_clinique 100 →
       a.duree_acte = a'.duree_acte →
       py_sorted a.modificateurs = py_sorted a'.modificateurs →
       a.type_acte ≠ a'.type_acte → joined_key a ≠ joined_key a') ∧
    (∀ a a' : ActeData,
       a.type_acte = a'.type_acte →
       a.duree_acte = a'.duree_acte →
       py_sorted a.modificateurs = py_sorted a'.modificateurs →
       py_take_chars a.description_clinique 100 ≠
         py_take_chars a'.description_clinique 100 →
       joined_key a ≠ joined_key a') ∧
    (∀ a a' : ActeData,
       a.type_acte = a'.type_acte →
       py_take_chars a.description_clinique 100 =
         py_take_chars a'.description_clinique 100 →
       py_sorted a.modificateurs = py_sorted a'.modificateurs →
       a.duree_acte ≠ a'.duree_acte →
       joined_key a ≠ joined_key a') := by
  refine ⟨fun _ _ => rfl, ?_, ?_, ?_⟩
  · intro a a' hdesc hdur hmod hne heq
    apply hne
    have hdata := congrArg String.data heq
    rw [joined_key_data, joined_key_data, hdesc, hdur, hmod] at hdata
    rw [List.append_left_inj] at hdata
    exact String.toList_inj.mp hdata
  · intro a a' htype hdur hmod hne heq
    apply hne
    have hdata := congrArg String.data heq
    rw [joined_key_data, joined_key_data, htype, hdur, hmod] at hdata
    rw [List.append_right_inj, List.append_left_inj] at hdata
    exact String.toList_inj.mp hdata
  · intro a a' htype hdesc hmod hne heq
    apply hne
    apply strOfDuree_injective
    have hdata := congrArg String.data heq
    rw [joined_key_data, joined_key_data, htype, hdesc, hmod] at hdata
    rw [List.append_right_inj, List.append_right_inj,
      List.append_left_inj] at hdata
    exact String.toList_inj.mp hdata

/-- C8 counterexample: two acts that differ in their modifier set — the
one-element list containing the string with a comma versus the two-element
list — produce the same joined key string (the sorted modifiers are joined
with commas before hashing), hence the same fingerprint for every hash
function; the claim that the fingerprint differs for any change to the
modifier set is false. -/
theorem C8_counterexample :
    (⟨"A-1", "chirurgie", "desc", "", none, ["a,b"], "CH", "S"⟩ :
        ActeData).modificateurs ≠
      (⟨"A-1", "chirurgie", "desc", "", none, ["a", "b"], "CH", "S"⟩ :
        ActeData).modificateurs ∧
    joined_key ⟨"A-1", "chirurgie", "desc", "", none, ["a,b"], "CH", "S"⟩ =
      joined_key ⟨"A-1", "chirurgie", "desc", "", none, ["a", "b"], "CH", "S"⟩ ∧
    create_cache_key (fun s => (s.length : Int))
        ⟨"A-1", "chirurgie", "desc", "", none, ["a,b"], "CH", "S"⟩ =
      create_cache_key (fun s => (s.length : Int))
        ⟨"A-1", "chirurgie", "desc", "", none, ["a", "b"], "CH", "S"⟩ := by
  refine ⟨by decide, by decide, by decide⟩

theorem C8_witness :
    joined_key ⟨"A-1", "chirurgie", "desc", "", none, [], "CH", "S"⟩ ≠
      joined_key ⟨"A-1", "radiologie", "desc", "", none, [], "CH", "S"⟩ :=
  C8_fingerprint_sensitivity.2.1
    ⟨"A-1", "chirurgie", "desc", "", none, [], "CH", "S"⟩
    ⟨"A-1", "radiologie", "desc", "", none, [], "CH", "S"⟩
    rfl rfl rfl (by decide)

end AgentAI
